import Mathlib

/-!
Shallow embedding of `src/tele_app.py` (a FastAPI gateway around an external
Telegram client library).

The original logic of the program is the `TelegramClientManager` class — a
mapping from string session handles to live client connections, plus a pair of
process-wide credentials — and a handful of HTTP endpoint handlers that resolve
a handle through the manager and forward one call to the external library.

Modelling choices, all taken from the source:
* The Python dict `self.clients` is an association list with Python-dict
  semantics: lookup finds the first (unique, in any reachable state) binding,
  assignment updates in place or appends, deletion removes the binding.
* The external Telegram library (`TelegramClient`, `StringSession`,
  `client.sign_in`, `client.get_entity`, ...) is abstracted by environment
  records of functions; connecting is observable through an explicit
  `connectionsOpened` counter in operation results.
* Python truthiness (`if not self.app_id or not self.app_hash`,
  `if session_hash and ...`) is modelled exactly: `None`/`0` are falsy for the
  int field, `None`/`""` for string fields.
* A FastAPI `HTTPException` raised inside a `try:` block is caught by that
  block's own `except Exception` handler, like any other exception; its
  `str()` is `"<status>: <detail>"`, which is reflected in `httpExceptionText`.
-/

/-- One live client connection held by the manager. The external library's
client object is opaque; `cid` distinguishes instances and `authorized` is the
result of `client.is_user_authorized()`. -/
structure Client where
  cid : Nat
  authorized : Bool
deriving DecidableEq, Repr

/-- The `self.clients` dict: session-handle keys to client values. -/
abbrev Store := List (String × Client)

/-- Dict lookup `self.clients[k]` (first binding wins; keys are unique in any
state the program can reach). -/
def storeLookup : Store → String → Option Client
  | [], _ => none
  | p :: rest, k => if p.1 = k then some p.2 else storeLookup rest k

/-- Dict membership test `k in self.clients`. -/
def storeContains (s : Store) (k : String) : Bool :=
  s.any (fun p => decide (p.1 = k))

/-- Dict assignment `self.clients[k] = c`: update in place if the key exists,
else append (Python dicts keep insertion order). -/
def storeInsert (s : Store) (k : String) (c : Client) : Store :=
  if storeContains s k then s.map (fun p => if p.1 = k then (k, c) else p)
  else s ++ [(k, c)]

/-- Dict deletion `del self.clients[k]` (removes the binding for `k`). -/
def storeErase (s : Store) (k : String) : Store :=
  s.filter (fun p => decide (p.1 ≠ k))

/-- The mutable state of `TelegramClientManager`: the client dict and the
process-wide credentials, both `None` until `/set_api_credentials` is called. -/
structure ManagerState where
  clients : Store
  app_id : Option Int
  app_hash : Option String
deriving DecidableEq, Repr

/-- `TelegramClientManager.__init__`. -/
def initialManager : ManagerState := ⟨[], none, none⟩

/-- Python truthiness of the optional int `self.app_id`: `None` and `0` are
falsy. -/
def truthyOptInt : Option Int → Bool
  | none => false
  | some n => decide (n ≠ 0)

/-- Python truthiness of an optional string: `None` and `""` are falsy. -/
def truthyOptStr : Option String → Bool
  | none => false
  | some s => decide (s ≠ "")

/-- The guard `not (not self.app_id or not self.app_hash)` shared by
`create_client` and `create_bot_client`. -/
def credsOk (st : ManagerState) : Bool :=
  truthyOptInt st.app_id && truthyOptStr st.app_hash

instance {ε α : Type} [DecidableEq ε] [DecidableEq α] : DecidableEq (Except ε α) := fun x y =>
  match x, y with
  | Except.ok a, Except.ok b =>
      if h : a = b then isTrue (by subst h; rfl)
      else isFalse (fun hab => h (by cases hab; rfl))
  | Except.error a, Except.error b =>
      if h : a = b then isTrue (by subst h; rfl)
      else isFalse (fun hab => h (by cases hab; rfl))
  | Except.ok _, Except.error _ => isFalse (fun hab => Except.noConfusion hab)
  | Except.error _, Except.ok _ => isFalse (fun hab => Except.noConfusion hab)

/-- Result of a `create_*` manager call: the returned handle or the raised
`ValueError` message, the manager state afterwards, and how many new
connections to the Telegram network the call opened. -/
structure OpResult where
  result : Except String String
  state : ManagerState
  connectionsOpened : Nat
deriving DecidableEq, Repr

/-- Environment for `create_client`: what the external library does. The
`Option String` argument is the session string the `StringSession` was built
from (`none` when the Python value was falsy and `StringSession()` was used).
`connectedClient` is the client object after `client.connect()`;
`savedHandle` is `session.save()`. -/
structure CreateEnv where
  connectedClient : Option String → Client
  savedHandle : Option String → String

/-- `TelegramClientManager.create_client(session_hash=None)`.
Raises `ValueError` when the credentials are falsy; short-circuits when a
truthy `session_hash` is already a key of the dict; otherwise connects a new
client and stores it under `session.save()`. -/
def create_client (env : CreateEnv) (st : ManagerState) (session_hash : Option String) :
    OpResult :=
  if credsOk st = false then
    ⟨Except.error "API credentials not set", st, 0⟩
  else if truthyOptStr session_hash && storeContains st.clients (session_hash.getD "") then
    ⟨Except.ok (session_hash.getD ""), st, 0⟩
  else
    let sessArg : Option String := if truthyOptStr session_hash then session_hash else none
    let client := env.connectedClient sessArg
    let new_hash := env.savedHandle sessArg
    ⟨Except.ok new_hash, { st with clients := storeInsert st.clients new_hash client }, 1⟩

/-- Environment for `create_bot_client`: `startedClient` is the client after
`client.start(bot_token=...)`, `savedHandle` is `session.save()`. -/
structure BotEnv where
  startedClient : String → Client
  savedHandle : String → String

/-- `TelegramClientManager.create_bot_client(bot_token)`. -/
def create_bot_client (env : BotEnv) (st : ManagerState) (bot_token : String) :
    OpResult :=
  if credsOk st = false then
    ⟨Except.error "API credentials not set", st, 0⟩
  else
    let client := env.startedClient bot_token
    let new_hash := env.savedHandle bot_token
    ⟨Except.ok new_hash, { st with clients := storeInsert st.clients new_hash client }, 1⟩

/-- `TelegramClientManager.get_client(session_hash)`: raises
`HTTPException(status_code=400, detail="Session not found")` when the handle is
not a key of the dict, else returns the stored client. The error value carries
the HTTP status code and detail of the raised exception. -/
def get_client (st : ManagerState) (session_hash : String) :
    Except (Nat × String) Client :=
  match storeLookup st.clients session_hash with
  | none => Except.error (400, "Session not found")
  | some c => Except.ok c

/-- `TelegramClientManager.remove_client(session_hash)`: when present,
disconnects the stored client and deletes the binding; otherwise does nothing.
Returns the new state and the list of clients disconnected by the call. -/
def remove_client (st : ManagerState) (session_hash : String) :
    ManagerState × List Client :=
  match storeLookup st.clients session_hash with
  | none => (st, [])
  | some c => ({ st with clients := storeErase st.clients session_hash }, [c])

/-- `TelegramClientManager.disconnect_all()`: disconnects every stored client
and clears the dict. Returns the new state and the clients disconnected. -/
def disconnect_all (st : ManagerState) : ManagerState × List Client :=
  ({ st with clients := [] }, st.clients.map Prod.snd)

/-- The `/set_api_credentials` handler: stores both fields and returns the
success message. -/
def set_api_credentials (st : ManagerState) (app_id : Int) (app_hash : String) :
    ManagerState × String :=
  ({ st with app_id := some app_id, app_hash := some app_hash },
   "API credentials set successfully")

/-- An HTTP response as produced by the endpoint handlers: a 200 payload or an
`HTTPException` with status code and detail. -/
inductive HttpResult (α : Type) where
  | ok : α → HttpResult α
  | err : Nat → String → HttpResult α
deriving DecidableEq, Repr

/-- `str()` of a starlette/FastAPI `HTTPException`, which is
`"<status_code>: <detail>"`. This is the detail a blanket
`except Exception as e: raise HTTPException(status_code=500, detail=str(e))`
produces when it catches an `HTTPException` raised inside its `try:` block. -/
def httpExceptionText (status : Nat) (detail : String) : String :=
  toString status ++ ": " ++ detail

/-- First code points of the contiguous runs of ten Unicode decimal digits
(general category Nd): every Nd character lies in some `[b, b+9]` with digit
value `c - b`. CPython's `int()` accepts all of them (it maps each Nd digit to
the ASCII digit of the same value before parsing), so `'0'..'9'` (0x30),
Arabic-Indic (0x660), fullwidth (0xFF10), etc. all parse. The table is the
complete Nd list of Unicode 14.0 (CPython 3.11), checked exhaustively against
that interpreter; CPython versions on newer Unicode add blocks (15.0 adds Kawi
0x11F50 and Nag Mundari 0x1E4F0) without changing any character below. -/
def pyDigitBlocks : List Nat :=
  [0x30, 0x660, 0x6F0, 0x7C0, 0x966, 0x9E6, 0xA66, 0xAE6, 0xB66, 0xBE6,
   0xC66, 0xCE6, 0xD66, 0xDE6, 0xE50, 0xED0, 0xF20, 0x1040, 0x1090, 0x17E0,
   0x1810, 0x1946, 0x19D0, 0x1A80, 0x1A90, 0x1B50, 0x1BB0, 0x1C40, 0x1C50,
   0xA620, 0xA8D0, 0xA900, 0xA9D0, 0xA9F0, 0xAA50, 0xABF0, 0xFF10,
   0x104A0, 0x10D30, 0x11066, 0x110F0, 0x11136, 0x111D0, 0x112F0, 0x11450,
   0x114D0, 0x11650, 0x116C0, 0x11730, 0x118E0, 0x11950, 0x11C50, 0x11D50,
   0x11DA0, 0x16A60, 0x16AC0, 0x16B50, 0x1D7CE, 0x1D7D8, 0x1D7E2,
   0x1D7EC, 0x1D7F6, 0x1E140, 0x1E2F0, 0x1E950, 0x1FBF0]

/-- The decimal value of a Unicode decimal digit (category Nd), `none` for
every other character. This is the per-character digit test of CPython's
`int()`. -/
def pyDigitVal (c : Char) : Option Nat :=
  pyDigitBlocks.findSome? (fun b =>
    if b ≤ c.toNat ∧ c.toNat ≤ b + 9 then some (c.toNat - b) else none)

/-- The whitespace `int()` strips: the ASCII control whitespace 0x09-0x0D,
space, NEL 0x85, and the Unicode space/line/paragraph separators (NBSP 0xA0,
Ogham 0x1680, the 0x2000-0x200A spaces, 0x2028, 0x2029, narrow NBSP 0x202F,
medium mathematical space 0x205F, ideographic space 0x3000). Checked against
CPython: the file separators 0x1C-0x1F satisfy `str.isspace` but are rejected
by `int()`, so they are deliberately not in this set. -/
def pyIsSpace (c : Char) : Bool :=
  decide ((0x9 ≤ c.toNat ∧ c.toNat ≤ 0xD) ∨
    c.toNat = 0x20 ∨ c.toNat = 0x85 ∨ c.toNat = 0xA0 ∨ c.toNat = 0x1680 ∨
    (0x2000 ≤ c.toNat ∧ c.toNat ≤ 0x200A) ∨ c.toNat = 0x2028 ∨
    c.toNat = 0x2029 ∨ c.toNat = 0x202F ∨ c.toNat = 0x205F ∨ c.toNat = 0x3000)

/-- Digit tail of Python's `int(str)` grammar after the first digit: decimal
digits (any script, mixed scripts allowed) with single underscores allowed
only between two digits. -/
def pyDigitsGo : Nat → List Char → Option Nat
  | acc, [] => some acc
  | acc, c :: rest =>
    match pyDigitVal c with
    | some v => pyDigitsGo (10 * acc + v) rest
    | none =>
      if c = '_' then
        match rest with
        | [] => none
        | d :: rest2 =>
          match pyDigitVal d with
          | some v => pyDigitsGo (10 * acc + v) rest2
          | none => none
      else none

/-- A non-empty digit run of Python's `int(str)` grammar. -/
def pyDigits : List Char → Option Nat
  | [] => none
  | c :: rest =>
    match pyDigitVal c with
    | some v => pyDigitsGo v rest
    | none => none

/-- Strip leading and trailing whitespace, as `int(str)` does. (Interior
whitespace still makes the digit run fail, as in CPython, where it is mapped
to a space the ASCII-level parser then rejects.) -/
def stripWs (cs : List Char) : List Char :=
  ((cs.dropWhile pyIsSpace).reverse.dropWhile pyIsSpace).reverse

/-- Python's `int(str)` in base 10: optional surrounding whitespace, an
optional ASCII sign, then Unicode decimal digits with single underscores
between them. `none` models the `ValueError` raised on any other input. -/
def pyInt (s : String) : Option Int :=
  match stripWs s.data with
  | '+' :: rest => (pyDigits rest).map (fun n => (n : Int))
  | '-' :: rest => (pyDigits rest).map (fun n => -(n : Int))
  | cs => (pyDigits cs).map (fun n => (n : Int))

/-- A Telegram entity a message can be addressed to: either the
`InputPeerUser(user_id, access_hash)` the handler builds directly, or an opaque
entity the external `client.get_entity` lookup resolved. -/
inductive Entity where
  | inputPeerUser : Int → Int → Entity
  | namedEntity : Nat → Entity
deriving DecidableEq, Repr

/-- A Python exception from an external library call, split by the only
distinction the handlers make: `ValueError` versus everything else. -/
inductive PyErr where
  | valueError : String → PyErr
  | otherError : String → PyErr
deriving DecidableEq, Repr

/-- Request body of `/send_message`. -/
structure MessageRequest where
  session_hash : String
  recipient : String
  message : String
deriving DecidableEq, Repr

/-- Environment for `/send_message`: the external `client.get_entity` lookup
and `client.send_message` (returning the sent message's id). -/
structure SendEnv where
  getEntity : String → Except PyErr Entity
  sendMessage : Entity → String → Except PyErr Nat

/-- Observable outcome of one `/send_message` request: the HTTP response
(success payload is the message string and message id), how many
`client.get_entity` lookups were performed, and the entity the message was
addressed to (if the handler got that far). -/
structure SendResult where
  response : HttpResult (String × Nat)
  entityLookups : Nat
  sentTo : Option Entity
deriving DecidableEq, Repr

/-- Translate a `PyErr` escaping the `try:` block of `/send_message` or
`/join_channel`: `except ValueError` maps to 400, `except Exception` to 500. -/
def pyErrToHttp {α : Type} (e : PyErr) : HttpResult α :=
  match e with
  | PyErr.valueError msg => HttpResult.err 400 msg
  | PyErr.otherError msg => HttpResult.err 500 msg

/-- The `/send_message` handler. `get_client` raising `HTTPException(400)` is
caught by the handler's own `except Exception` and surfaces as a 500 whose
detail is `str()` of that exception. The recipient is first parsed with
`int()`; on success the handler builds `InputPeerUser(recipient_id, 0)` with no
lookup, otherwise it resolves the string via `client.get_entity`. -/
def send_message (env : SendEnv) (st : ManagerState) (req : MessageRequest) :
    SendResult :=
  match get_client st req.session_hash with
  | Except.error pair => ⟨HttpResult.err 500 (httpExceptionText pair.1 pair.2), 0, none⟩
  | Except.ok _client =>
    match pyInt req.recipient with
    | some n =>
      let entity := Entity.inputPeerUser n 0
      match env.sendMessage entity req.message with
      | Except.ok mid => ⟨HttpResult.ok ("Message sent successfully", mid), 0, some entity⟩
      | Except.error e => ⟨pyErrToHttp e, 0, some entity⟩
    | none =>
      match env.getEntity req.recipient with
      | Except.error e => ⟨pyErrToHttp e, 1, none⟩
      | Except.ok entity =>
        match env.sendMessage entity req.message with
        | Except.ok mid => ⟨HttpResult.ok ("Message sent successfully", mid), 1, some entity⟩
        | Except.error e => ⟨pyErrToHttp e, 1, some entity⟩

/-- The user object returned by `client.get_me()`. -/
structure User where
  first_name : String
deriving DecidableEq, Repr

/-- Outcome of the external `client.sign_in(phone, code=..., phone_code_hash=...)`
call: success, `SessionPasswordNeededError`, `PhoneCodeInvalidError`, or any
other exception. -/
inductive SignInOutcome where
  | ok : User → SignInOutcome
  | sessionPasswordNeeded : SignInOutcome
  | phoneCodeInvalid : SignInOutcome
  | otherError : String → SignInOutcome
deriving DecidableEq, Repr

/-- Request body `OTPVerification` of `/verify_otp`. -/
structure OTPVerification where
  phone : String
  code : String
  phone_code_hash : String
deriving DecidableEq, Repr

/-- The 200 payload of `/verify_otp`. -/
structure OtpResponse where
  message : String
  session_hash : String
deriving DecidableEq, Repr

/-- Environment for `/verify_otp`: the external sign-in call and `get_me`. -/
structure OtpEnv where
  signIn : Client → String → String → String → SignInOutcome
  getMe : Client → User

/-- The `/verify_otp` handler. A `SessionPasswordNeededError` from `sign_in`
is answered with HTTP 200 and an advisory message; `PhoneCodeInvalidError`
becomes an `HTTPException(401)` raised from its own `except` clause (which the
sibling `except Exception` does not catch); `get_client`'s
`HTTPException(400)` is caught by `except Exception` and surfaces as 500. -/
def verify_otp (env : OtpEnv) (st : ManagerState) (otp : OTPVerification)
    (hash : String) : HttpResult OtpResponse :=
  match get_client st hash with
  | Except.error pair => HttpResult.err 500 (httpExceptionText pair.1 pair.2)
  | Except.ok client =>
    match env.signIn client otp.phone otp.code otp.phone_code_hash with
    | SignInOutcome.ok user =>
        HttpResult.ok ⟨"Authenticated as " ++ user.first_name, hash⟩
    | SignInOutcome.sessionPasswordNeeded =>
        HttpResult.ok
          ⟨"Two-step verification is enabled. Please provide the password.", hash⟩
    | SignInOutcome.phoneCodeInvalid =>
        HttpResult.err 401 "Invalid code provided."
    | SignInOutcome.otherError msg => HttpResult.err 500 msg

/-- Request body of `/send_story`. -/
structure StoryRequest where
  file_path : String
  spoiler : Bool
  ttl_seconds : Int
deriving DecidableEq, Repr

/-- Environment for `/send_story`: the upload-and-post sequence
(`client.upload_file` then `SendStoryRequest`), abstracted as one call. -/
structure StoryEnv where
  postStory : Client → StoryRequest → Except String Unit

/-- The `/send_story` handler. Returns the HTTP response paired with the number
of upload/post attempts made. When `client.is_user_authorized()` is false the
handler raises `HTTPException(401, "Unauthorized. Please authenticate first.")`
inside its own `try:` block, so the blanket `except Exception` catches it and
re-raises it as a 500 whose detail is `str()` of the 401 exception. -/
def send_story (env : StoryEnv) (st : ManagerState) (req : StoryRequest)
    (hash : String) : HttpResult String × Nat :=
  match get_client st hash with
  | Except.error pair => (HttpResult.err 500 (httpExceptionText pair.1 pair.2), 0)
  | Except.ok client =>
    if client.authorized = false then
      (HttpResult.err 500
        (httpExceptionText 401 "Unauthorized. Please authenticate first."), 0)
    else
      match env.postStory client req with
      | Except.ok _ => (HttpResult.ok "Story sent successfully", 1)
      | Except.error msg => (HttpResult.err 500 msg, 1)

/-! Helper lemmas about the store. -/

theorem storeContains_false_lookup (s : Store) (k : String)
    (h : storeContains s k = false) : storeLookup s k = none := by
  induction s with
  | nil => rfl
  | cons p rest ih =>
    simp only [storeContains, List.any_cons, Bool.or_eq_false_iff,
      decide_eq_false_iff_not] at h
    simp only [storeLookup, if_neg h.1]
    exact ih h.2

theorem storeLookup_erase_self (s : Store) (k : String) :
    storeLookup (storeErase s k) k = none := by
  induction s with
  | nil => rfl
  | cons p rest ih =>
    by_cases hpk : p.1 = k
    · simpa [storeErase, List.filter_cons, hpk] using ih
    · simpa [storeErase, List.filter_cons, storeLookup, hpk] using ih

theorem storeLookup_erase_other (s : Store) (k k2 : String) (hne : k2 ≠ k) :
    storeLookup (storeErase s k) k2 = storeLookup s k2 := by
  induction s with
  | nil => rfl
  | cons p rest ih =>
    by_cases hpk : p.1 = k
    · have hp2 : p.1 ≠ k2 := fun hh => hne (hpk.symm.trans hh).symm
      simpa [storeErase, List.filter_cons, storeLookup, hpk, hp2, hne, Ne.symm hne] using ih
    · by_cases hp2 : p.1 = k2
      · simp [storeErase, List.filter_cons, storeLookup, hpk, hp2, hne, Ne.symm hne]
      · simpa [storeErase, List.filter_cons, storeLookup, hpk, hp2, hne] using ih

/-! Concrete fixtures shared by the witnesses and counterexamples. -/

def clientA : Client := ⟨1, false⟩

def clientB : Client := ⟨2, true⟩

def stA : ManagerState := ⟨[("hA", clientA)], some 1, some "x"⟩

def stB : ManagerState := ⟨[("hA", clientA), ("hB", clientB)], some 1, some "x"⟩

def stEmptyKey : ManagerState := ⟨[("", clientA)], some 1, some "x"⟩

def envA : CreateEnv := ⟨fun _ => ⟨3, false⟩, fun _ => "hNew"⟩

def botEnvA : BotEnv := ⟨fun _ => ⟨4, false⟩, fun _ => "hBot"⟩

/-! The claims. -/

/-- Claim C1, amended: when the credentials pass the truthiness check and `h`
is a nonempty handle already present in the store, `create_client h` returns
`h` unchanged, opens no new connection, and leaves the whole manager state
unchanged. (The nonemptiness condition is forced by the Python truthiness
guard `if session_hash and session_hash in self.clients`, the credentials
condition by the check that precedes it.) -/
theorem create_client_registered_handle (env : CreateEnv) (st : ManagerState)
    (h : String) (hcred : credsOk st = true) (hne : h ≠ "")
    (hmem : storeContains st.clients h = true) :
    create_client env st (some h) = ⟨Except.ok h, st, 0⟩ := by
  simp [create_client, hcred, truthyOptStr, hne, hmem]

theorem create_client_registered_handle_witness :
    create_client envA stA (some "hA") = ⟨Except.ok "hA", stA, 0⟩ :=
  create_client_registered_handle envA stA "hA" (by decide) (by decide) (by decide)

/-- Claim C1, counterexample to the claim as stated: the empty string can sit
in the store as a handle, yet `create_client ""` is not a no-op — the falsy
guard sends it down the fresh-session path, so it opens a connection, returns
a different handle, and grows the store. -/
theorem create_client_empty_handle_cex :
    (create_client envA stEmptyKey (some "")).connectionsOpened = 1 ∧
    (create_client envA stEmptyKey (some "")).result = Except.ok "hNew" ∧
    (create_client envA stEmptyKey (some "")).state.clients =
      [("", clientA), ("hNew", Client.mk 3 false)] :=
  ⟨rfl, rfl, rfl⟩

/-- Claim C2: with either credential still unset, both `create_client` and
`create_bot_client` raise `ValueError "API credentials not set"`, leave the
state unchanged, and open no connection. -/
theorem create_unset_credentials (cenv : CreateEnv) (benv : BotEnv)
    (st : ManagerState) (sh : Option String) (tok : String)
    (h : st.app_id = none ∨ st.app_hash = none) :
    create_client cenv st sh = ⟨Except.error "API credentials not set", st, 0⟩ ∧
    create_bot_client benv st tok = ⟨Except.error "API credentials not set", st, 0⟩ := by
  have hc : credsOk st = false := by
    rcases h with h | h <;> simp [credsOk, truthyOptInt, truthyOptStr, h]
  exact ⟨by simp [create_client, hc], by simp [create_bot_client, hc]⟩

theorem create_unset_credentials_witness :
    create_client envA initialManager (some "hA") =
      ⟨Except.error "API credentials not set", initialManager, 0⟩ ∧
    create_bot_client botEnvA initialManager "tok" =
      ⟨Except.error "API credentials not set", initialManager, 0⟩ :=
  create_unset_credentials envA botEnvA initialManager (some "hA") "tok" (Or.inl rfl)

/-- Claim C3: `get_client` on a handle absent from the store raises
`HTTPException(400, "Session not found")`; on a stored handle it returns the
stored client. -/
theorem get_client_spec (st : ManagerState) (h : String) :
    (storeContains st.clients h = false →
      get_client st h = Except.error (400, "Session not found")) ∧
    (∀ c, storeLookup st.clients h = some c → get_client st h = Except.ok c) := by
  constructor
  · intro hc
    have hl := storeContains_false_lookup st.clients h hc
    unfold get_client
    rw [hl]
  · intro c hc
    unfold get_client
    rw [hc]

theorem get_client_spec_witness :
    get_client stA "missing" = Except.error (400, "Session not found") ∧
    get_client stA "hA" = Except.ok clientA :=
  ⟨(get_client_spec stA "missing").1 (by decide),
   (get_client_spec stA "hA").2 clientA (by decide)⟩

/-- Claim C4: after `disconnect_all` the store is empty, every handle fails a
subsequent `get_client` lookup, and every previously stored connection is in
the list of disconnected clients. -/
theorem disconnect_all_spec (st : ManagerState) :
    (disconnect_all st).1.clients = [] ∧
    (∀ h, get_client (disconnect_all st).1 h =
      Except.error (400, "Session not found")) ∧
    (disconnect_all st).2 = st.clients.map Prod.snd := by
  refine ⟨rfl, fun h => ?_, rfl⟩
  rfl

/-- Claim C5: `remove_client h` disconnects and deletes exactly the entry for
`h` when present (credentials and all other entries untouched), and is a
complete no-op when `h` is absent. -/
theorem remove_client_spec (st : ManagerState) (h : String) :
    (storeLookup st.clients h = none → remove_client st h = (st, [])) ∧
    (∀ c, storeLookup st.clients h = some c →
      (remove_client st h).2 = [c] ∧
      (remove_client st h).1.app_id = st.app_id ∧
      (remove_client st h).1.app_hash = st.app_hash ∧
      storeLookup (remove_client st h).1.clients h = none ∧
      (∀ k, k ≠ h →
        storeLookup (remove_client st h).1.clients k = storeLookup st.clients k)) := by
  constructor
  · intro hl
    unfold remove_client
    rw [hl]
  · intro c hl
    unfold remove_client
    rw [hl]
    refine ⟨rfl, rfl, rfl, ?_, ?_⟩
    · exact storeLookup_erase_self st.clients h
    · intro k hk
      exact storeLookup_erase_other st.clients h k hk

theorem remove_client_spec_witness :
    remove_client stB "missing" = (stB, []) ∧
    (remove_client stB "hA").2 = [clientA] ∧
    storeLookup (remove_client stB "hA").1.clients "hA" = none ∧
    storeLookup (remove_client stB "hA").1.clients "hB" =
      storeLookup stB.clients "hB" := by
  refine ⟨(remove_client_spec stB "missing").1 (by decide), ?_, ?_, ?_⟩
  · exact ((remove_client_spec stB "hA").2 clientA (by decide)).1
  · exact ((remove_client_spec stB "hA").2 clientA (by decide)).2.2.2.1
  · exact ((remove_client_spec stB "hA").2 clientA (by decide)).2.2.2.2 "hB" (by decide)

def sendEnvA : SendEnv :=
  ⟨fun _ => Except.ok (Entity.namedEntity 7), fun _ _ => Except.ok 99⟩

def reqNum : MessageRequest := ⟨"hA", "12345", "hello"⟩

def reqName : MessageRequest := ⟨"hA", "somechannel", "hello"⟩

def reqNumFW : MessageRequest := ⟨"hA", "１２３４５", "hello"⟩

/-- Claim C6: in `/send_message`, a recipient string accepted by Python's
`int()` is addressed directly as `InputPeerUser(recipient_id, 0)` with no
entity lookup; a recipient string rejected by `int()` is resolved through
exactly one external `client.get_entity` lookup, and the message goes to
whatever entity that lookup returns. -/
theorem send_message_recipient_paths (env : SendEnv) (st : ManagerState)
    (req : MessageRequest) (client : Client)
    (hc : get_client st req.session_hash = Except.ok client) :
    (∀ n, pyInt req.recipient = some n →
      (send_message env st req).entityLookups = 0 ∧
      (send_message env st req).sentTo = some (Entity.inputPeerUser n 0)) ∧
    (pyInt req.recipient = none →
      ((send_message env st req).entityLookups = 1 ∧
       ∀ e, env.getEntity req.recipient = Except.ok e →
         (send_message env st req).sentTo = some e)) := by
  constructor
  · intro n hn
    cases hsend : env.sendMessage (Entity.inputPeerUser n 0) req.message <;>
      simp [send_message, hc, hn, hsend]
  · intro hn
    constructor
    · cases hget : env.getEntity req.recipient with
      | error e => simp [send_message, hc, hn, hget]
      | ok entity =>
        cases hsend : env.sendMessage entity req.message <;>
          simp [send_message, hc, hn, hget, hsend]
    · intro e2 he2
      cases hsend : env.sendMessage e2 req.message <;>
        simp [send_message, hc, hn, he2, hsend]

theorem send_message_recipient_paths_witness :
    (send_message sendEnvA stA reqNum).entityLookups = 0 ∧
    (send_message sendEnvA stA reqNum).sentTo = some (Entity.inputPeerUser 12345 0) ∧
    (send_message sendEnvA stA reqNumFW).entityLookups = 0 ∧
    (send_message sendEnvA stA reqNumFW).sentTo = some (Entity.inputPeerUser 12345 0) ∧
    (send_message sendEnvA stA reqName).entityLookups = 1 ∧
    (send_message sendEnvA stA reqName).sentTo = some (Entity.namedEntity 7) := by
  have h1 := (send_message_recipient_paths sendEnvA stA reqNum clientA rfl).1
    12345 (by decide)
  have h3 := (send_message_recipient_paths sendEnvA stA reqNumFW clientA rfl).1
    12345 (by decide)
  have h2 := (send_message_recipient_paths sendEnvA stA reqName clientA rfl).2
    (by decide)
  exact ⟨h1.1, h1.2, h3.1, h3.2, h2.1, h2.2 (Entity.namedEntity 7) rfl⟩

def otpEnv2FA : OtpEnv :=
  ⟨fun _ _ _ _ => SignInOutcome.sessionPasswordNeeded, fun _ => ⟨"Ann"⟩⟩

def otpEnvBadCode : OtpEnv :=
  ⟨fun _ _ _ _ => SignInOutcome.phoneCodeInvalid, fun _ => ⟨"Ann"⟩⟩

def otpReqA : OTPVerification := ⟨"+15550001111", "11111", "pch"⟩

/-- Claim C7: when the external sign-in call raises
`SessionPasswordNeededError`, `/verify_otp` answers HTTP 200 with the advisory
message and the same session hash, not an error. -/
theorem verify_otp_two_factor (env : OtpEnv) (st : ManagerState)
    (otp : OTPVerification) (hash : String) (client : Client)
    (hc : get_client st hash = Except.ok client)
    (hs : env.signIn client otp.phone otp.code otp.phone_code_hash =
      SignInOutcome.sessionPasswordNeeded) :
    verify_otp env st otp hash =
      HttpResult.ok
        ⟨"Two-step verification is enabled. Please provide the password.", hash⟩ := by
  simp [verify_otp, hc, hs]

theorem verify_otp_two_factor_witness :
    verify_otp otpEnv2FA stA otpReqA "hA" =
      HttpResult.ok
        ⟨"Two-step verification is enabled. Please provide the password.", "hA"⟩ :=
  verify_otp_two_factor otpEnv2FA stA otpReqA "hA" clientA rfl rfl

/-- Claim C8: when the external sign-in call raises `PhoneCodeInvalidError`,
`/verify_otp` fails with HTTP 401. -/
theorem verify_otp_invalid_code (env : OtpEnv) (st : ManagerState)
    (otp : OTPVerification) (hash : String) (client : Client)
    (hc : get_client st hash = Except.ok client)
    (hs : env.signIn client otp.phone otp.code otp.phone_code_hash =
      SignInOutcome.phoneCodeInvalid) :
    verify_otp env st otp hash = HttpResult.err 401 "Invalid code provided." := by
  simp [verify_otp, hc, hs]

theorem verify_otp_invalid_code_witness :
    verify_otp otpEnvBadCode stA otpReqA "hA" =
      HttpResult.err 401 "Invalid code provided." :=
  verify_otp_invalid_code otpEnvBadCode stA otpReqA "hA" clientA rfl rfl

def clientUnauth : Client := ⟨5, false⟩

def stStory : ManagerState := ⟨[("s", clientUnauth)], some 1, some "x"⟩

def storyEnvA : StoryEnv := ⟨fun _ _ => Except.ok ()⟩

def storyReqA : StoryRequest := ⟨"uploads/p.jpg", true, 42⟩

/-- Claim C9, evaluated at the failing input: with handle `"s"` stored but its
client not authorized, `/send_story` makes no upload/post attempt but answers
HTTP 500 — its own `raise HTTPException(401, ...)` is swallowed by the
handler's blanket `except Exception`, which re-raises it as a 500 whose detail
is the `str()` of the 401 exception. The spec's promised 401 never reaches the
caller. -/
theorem send_story_unauthorized_maps_to_500 :
    send_story storyEnvA stStory storyReqA "s" =
      (HttpResult.err 500 "401: Unauthorized. Please authenticate first.", 0) :=
  rfl

/-- Claim C10: after `/set_api_credentials` with `app_id = 0` or
`app_hash = ""`, both `create_*` operations still raise the very same
`ValueError "API credentials not set"` as with no credentials at all, open no
connection, and leave the state unchanged — the guard is a truthiness test,
not a null test. -/
theorem create_falsy_credentials (cenv : CreateEnv) (benv : BotEnv)
    (st : ManagerState) (idv : Int) (hashv : String) (sh : Option String)
    (tok : String) (h : idv = 0 ∨ hashv = "") :
    create_client cenv (set_api_credentials st idv hashv).1 sh =
      ⟨Except.error "API credentials not set",
       (set_api_credentials st idv hashv).1, 0⟩ ∧
    create_bot_client benv (set_api_credentials st idv hashv).1 tok =
      ⟨Except.error "API credentials not set",
       (set_api_credentials st idv hashv).1, 0⟩ := by
  have hc : credsOk (set_api_credentials st idv hashv).1 = false := by
    rcases h with h | h <;>
      simp [credsOk, set_api_credentials, truthyOptInt, truthyOptStr, h]
  exact ⟨by simp [create_client, hc], by simp [create_bot_client, hc]⟩

theorem create_falsy_credentials_witness :
    create_client envA (set_api_credentials initialManager 0 "y").1 (some "hA") =
      ⟨Except.error "API credentials not set",
       (set_api_credentials initialManager 0 "y").1, 0⟩ ∧
    create_bot_client botEnvA (set_api_credentials initialManager 0 "y").1 "tok" =
      ⟨Except.error "API credentials not set",
       (set_api_credentials initialManager 0 "y").1, 0⟩ :=
  create_falsy_credentials envA botEnvA initialManager 0 "y" (some "hA") "tok"
    (Or.inl rfl)
